import Mathlib

/-!
Shallow embedding of the BUILDGOOGLE repository's authentication/session/
persistence flow (src/App.tsx, src/types.ts) and of the bio-generation
collaborator (src/unnamed/part_000, the gemini service), with theorems
settling the spec's claims about them.

The provider state holds the Session (`user`), the Directory (`users`),
the loading flag, and a model of the two localStorage keys
(`auth_db_users`, `auth_session`).  The simulated setTimeout delays carry
no semantic content beyond sequencing, so each operation is modelled as
the state transition its callback performs; the `setIsLoading(true)` that
precedes each delay is modelled by the explicit `startLoading` step so the
intermediate state is observable.
-/

namespace BuildGoogle

/-- Role of a user: admin or user (src/types.ts). -/
inductive Role
  | admin
  | user
  deriving DecidableEq, Repr

/-- A User record, as in src/types.ts: identifier, display name, email,
plaintext password, biography, creation timestamp, role. -/
structure User where
  id : String
  name : String
  email : String
  password : String
  bio : String
  createdAt : String
  role : Role
  deriving DecidableEq, Repr

/-- Model of the two localStorage keys the app uses (src/App.tsx):
`auth_db_users` holds the serialized Directory, `auth_session` the
serialized current Session; `none` models an absent key. -/
structure Store where
  auth_db_users : Option (List User)
  auth_session : Option User
  deriving DecidableEq, Repr

/-- The AuthProvider component state: Session (`user`), Directory
(`users`), the loading flag, and the persisted storage. -/
structure ProviderState where
  user : Option User
  users : List User
  isLoading : Bool
  store : Store
  deriving DecidableEq, Repr

/-- The two user-facing failure kinds of the provider. -/
inductive AuthError
  | invalidCredentials
  | emailTaken
  deriving DecidableEq, Repr

/-- The display message each failure carries in src/App.tsx. -/
def AuthError.message : AuthError → String
  | .invalidCredentials => "Credenciais inválidas."
  | .emailTaken => "Este email já está cadastrado."

/-- State at component mount, before the rehydration effect runs:
empty Session and Directory, loading flag true (src/App.tsx lines 20-22). -/
def initialState (store : Store) : ProviderState :=
  { user := none, users := [], isLoading := true, store := store }

/-- The mount effect (src/App.tsx lines 25-38): rehydrate Directory and
Session from their storage keys when present, then clear the loading flag. -/
def rehydrate (st : ProviderState) : ProviderState :=
  let st1 :=
    match st.store.auth_db_users with
    | some storedUsers => { st with users := storedUsers }
    | none => st
  let st2 :=
    match st1.store.auth_session with
    | some storedSession => { st1 with user := some storedSession }
    | none => st1
  { st2 with isLoading := false }

/-- The sync effect (src/App.tsx lines 41-45): whenever the Directory
changes, write it to its storage key, but only if it is non-empty. -/
def syncUsersEffect (st : ProviderState) : ProviderState :=
  if st.users.length > 0 then
    { st with store := { st.store with auth_db_users := some st.users } }
  else st

/-- The `setIsLoading(true)` that login and register perform before their
simulated delay (src/App.tsx lines 49 and 67).  The state during the
delay is `startLoading st`. -/
def startLoading (st : ProviderState) : ProviderState :=
  { st with isLoading := true }

/-- The body of login's setTimeout callback (src/App.tsx lines 50-61):
find the first Directory record matching both email and password; on a
match set and persist the Session and resolve, otherwise reject with
invalid credentials.  Either way the loading flag is cleared. -/
def loginSettle (st : ProviderState) (email pass : String) :
    ProviderState × Except AuthError Unit :=
  match st.users.find? (fun u => u.email == email && u.password == pass) with
  | some foundUser =>
      ({ st with
          user := some foundUser,
          store := { st.store with auth_session := some foundUser },
          isLoading := false },
        .ok ())
  | none =>
      ({ st with isLoading := false }, .error .invalidCredentials)

/-- login(email, password): set the loading flag, then (after the
simulated 800ms delay) run the callback (src/App.tsx lines 47-63). -/
def login (st : ProviderState) (email pass : String) :
    ProviderState × Except AuthError Unit :=
  loginSettle (startLoading st) email pass

/-- The registration input: Omit of User over id, createdAt, role
(src/types.ts). -/
structure RegisterData where
  name : String
  email : String
  password : String
  bio : String
  deriving DecidableEq, Repr

/-- The User record register constructs (src/App.tsx lines 74-79), with
the generated identifier and current timestamp passed in explicitly since
the source draws them from Math.random and Date. -/
def freshUser (data : RegisterData) (freshId now : String) : User :=
  { id := freshId, name := data.name, email := data.email,
    password := data.password, bio := data.bio, createdAt := now,
    role := .user }

/-- The body of register's setTimeout callback (src/App.tsx lines 68-87):
reject with email-taken if any Directory record has the given email;
otherwise append the fresh record to the Directory (whose change fires the
sync effect), set it as the Session, persist the Session, and resolve. -/
def registerSettle (st : ProviderState) (data : RegisterData)
    (freshId now : String) : ProviderState × Except AuthError Unit :=
  if st.users.any (fun u => u.email == data.email) then
    ({ st with isLoading := false }, .error .emailTaken)
  else
    let newUser := freshUser data freshId now
    let st1 := syncUsersEffect { st with users := st.users ++ [newUser] }
    ({ st1 with
        user := some newUser,
        store := { st1.store with auth_session := some newUser },
        isLoading := false },
      .ok ())

/-- register(data): set the loading flag, then (after the simulated
1000ms delay) run the callback (src/App.tsx lines 65-89). -/
def register (st : ProviderState) (data : RegisterData)
    (freshId now : String) : ProviderState × Except AuthError Unit :=
  registerSettle (startLoading st) data freshId now

/-- logout (src/App.tsx lines 91-94): clear the Session and remove its
storage key; nothing else changes. -/
def logout (st : ProviderState) : ProviderState :=
  { st with user := none, store := { st.store with auth_session := none } }

/-- Outcome of the underlying generateContent call in the gemini service:
either a response whose text field is a string ("" models an absent or
empty text), or a thrown error. -/
inductive ApiResult
  | success (text : String)
  | failure
  deriving DecidableEq, Repr

/-- generateBio (src/unnamed/part_000): call the model; if the call
throws, return a fixed fallback; if the response text is falsy (empty),
return a different fixed fallback; otherwise return the text.  The name
and interests only shape the prompt, never the fallback behaviour. -/
def generateBio (name interests : String) (api : ApiResult) : String :=
  match api with
  | .success t => if t = "" then "Apaixonado por tecnologia e inovação." else t
  | .failure => "Entusiasta de tecnologia explorando novas ideias."

/-- A provider operation, for reasoning about sequences of calls. -/
inductive Op
  | login (email pass : String)
  | register (data : RegisterData) (freshId now : String)
  | logout
  deriving Repr

/-- Apply one operation to the provider state, discarding the
resolve/reject outcome. -/
def applyOp (st : ProviderState) : Op → ProviderState
  | .login e p => (login st e p).1
  | .register d i t => (register st d i t).1
  | .logout => logout st

/-- Run a sequence of operations from a starting state. -/
def runOps (st : ProviderState) (ops : List Op) : ProviderState :=
  ops.foldl applyOp st

/-! Concrete example data, following the worked example of the spec. -/

/-- The record of the spec's worked example: email a@x.com, password
secret1. -/
def exUser : User :=
  { id := "u1", name := "Ana", email := "a@x.com", password := "secret1",
    bio := "Oi", createdAt := "2024-01-01T00:00:00.000Z", role := .user }

/-- A provider state whose Directory holds exactly `exUser`, idle. -/
def exState : ProviderState :=
  { user := none, users := [exUser], isLoading := false,
    store := { auth_db_users := some [exUser], auth_session := none } }

/-- A provider state with an empty Directory but a previously persisted
Directory key. -/
def exEmptyState : ProviderState :=
  { user := none, users := [], isLoading := false,
    store := { auth_db_users := some [exUser], auth_session := none } }

/-! Helper lemmas shared by the claim theorems. -/

/-- login never changes the Directory. -/
lemma login_users (st : ProviderState) (e p : String) :
    ((login st e p).1).users = st.users := by
  unfold login loginSettle startLoading
  split <;> rfl

/-- login never touches the Directory storage key. -/
lemma login_store_db (st : ProviderState) (e p : String) :
    ((login st e p).1).store.auth_db_users = st.store.auth_db_users := by
  unfold login loginSettle startLoading
  split <;> rfl

/-- The sync effect never changes the in-memory Directory. -/
lemma syncUsersEffect_users (st : ProviderState) :
    (syncUsersEffect st).users = st.users := by
  unfold syncUsersEffect
  split <;> rfl

/-- The sync effect never changes the Session or its key. -/
lemma syncUsersEffect_user (st : ProviderState) :
    (syncUsersEffect st).user = st.user := by
  unfold syncUsersEffect
  split <;> rfl

/-- On a fresh email, register appends exactly the fresh record. -/
lemma register_users_of_not_taken (st : ProviderState) (d : RegisterData)
    (i t : String) (h : st.users.any (fun u => u.email == d.email) = false) :
    ((register st d i t).1).users = st.users ++ [freshUser d i t] := by
  unfold register registerSettle startLoading
  simp only [h]
  simp [syncUsersEffect_users]

/-- When a Directory record matches both fields, login resolves and sets
the Session to a matching Directory record. -/
lemma login_success_of_match (st : ProviderState) (e p : String)
    (h : ∃ u ∈ st.users, u.email = e ∧ u.password = p) :
    (login st e p).2 = .ok () ∧
    ∃ u, (login st e p).1.user = some u ∧
      u ∈ st.users ∧ u.email = e ∧ u.password = p := by
  rcases hfind : st.users.find? (fun u => u.email == e && u.password == p)
    with _ | u
  · obtain ⟨u, hu, he, hp⟩ := h
    have : (u.email == e && u.password == p) = true := by simp [he, hp]
    exact absurd this (List.find?_eq_none.mp hfind u hu)
  · have hmem := List.mem_of_find?_eq_some hfind
    have hpred := List.find?_some hfind
    simp only [Bool.and_eq_true, beq_iff_eq] at hpred
    refine ⟨?_, u, ?_, hmem, hpred.1, hpred.2⟩ <;>
      simp [login, loginSettle, startLoading, hfind]

/-- When no Directory record matches both fields, login rejects with
invalid credentials and leaves the Session as it was. -/
lemma login_failure_of_no_match (st : ProviderState) (e p : String)
    (h : ∀ u ∈ st.users, ¬(u.email = e ∧ u.password = p)) :
    (login st e p).2 = .error .invalidCredentials ∧
    (login st e p).1.user = st.user := by
  have hfind : st.users.find? (fun u => u.email == e && u.password == p)
      = none := by
    rw [List.find?_eq_none]
    intro u hu hpred
    simp only [Bool.and_eq_true, beq_iff_eq] at hpred
    exact h u hu hpred
  refine ⟨?_, ?_⟩ <;> simp [login, loginSettle, startLoading, hfind]

/-- C1: if some Directory record has exactly the given email and password,
login succeeds and sets the Session to such a record (the one `find`
returns, hence a member of the Directory matching both fields); if no
record matches both, login fails with InvalidCredentials and leaves the
Session unchanged. -/
theorem login_matches_spec (st : ProviderState) (e p : String) :
    ((∃ u ∈ st.users, u.email = e ∧ u.password = p) →
      (login st e p).2 = .ok () ∧
      ∃ u, (login st e p).1.user = some u ∧
        u ∈ st.users ∧ u.email = e ∧ u.password = p) ∧
    ((∀ u ∈ st.users, ¬(u.email = e ∧ u.password = p)) →
      (login st e p).2 = .error .invalidCredentials ∧
      (login st e p).1.user = st.user) :=
  ⟨login_success_of_match st e p, login_failure_of_no_match st e p⟩

/-- Witness for C1 on the spec's worked example: the matching pair
succeeds, the wrong-password pair is rejected. -/
theorem login_matches_spec_witness :
    (login exState "a@x.com" "secret1").2 = .ok () ∧
    (login exState "a@x.com" "wrong").2 = .error .invalidCredentials :=
  ⟨((login_matches_spec exState "a@x.com" "secret1").1
      ⟨exUser, by decide, rfl, rfl⟩).1,
   ((login_matches_spec exState "a@x.com" "wrong").2 (by decide)).1⟩

/-- C4: logout clears the Session and removes its storage key, and leaves
the Directory, the Directory storage key and the loading flag unchanged,
whatever the prior state. -/
theorem logout_clears_session (st : ProviderState) :
    (logout st).user = none ∧
    (logout st).store.auth_session = none ∧
    (logout st).users = st.users ∧
    (logout st).store.auth_db_users = st.store.auth_db_users ∧
    (logout st).isLoading = st.isLoading :=
  ⟨rfl, rfl, rfl, rfl, rfl⟩

/-- C2: registering with an email already present in the Directory fails
with EmailTaken and leaves the Directory, the Session and the whole
storage unchanged — the error path mutates nothing. -/
theorem register_email_taken (st : ProviderState) (d : RegisterData)
    (i t : String) (h : ∃ u ∈ st.users, u.email = d.email) :
    (register st d i t).2 = .error .emailTaken ∧
    (register st d i t).1.users = st.users ∧
    (register st d i t).1.user = st.user ∧
    (register st d i t).1.store = st.store := by
  have hany : st.users.any (fun u => u.email == d.email) = true := by
    rw [List.any_eq_true]
    obtain ⟨u, hu, he⟩ := h
    exact ⟨u, hu, by simp [he]⟩
  refine ⟨?_, ?_, ?_, ?_⟩ <;>
    simp [register, registerSettle, startLoading, hany]

/-- Witness for C2: re-registering the worked example's email fails. -/
theorem register_email_taken_witness :
    (register exState ⟨"Bo", "a@x.com", "pw", ""⟩ "u2" "2024").2 =
      .error .emailTaken :=
  (register_email_taken exState ⟨"Bo", "a@x.com", "pw", ""⟩ "u2" "2024"
    ⟨exUser, by decide, rfl⟩).1

/-- C3: registering a fresh email succeeds, appends exactly one record
carrying the given fields, the generated identifier, the timestamp and
role user, sets that record as the Session, and persists both the
Directory and the Session to their storage keys. -/
theorem register_unique_email (st : ProviderState) (d : RegisterData)
    (i t : String) (h : ∀ u ∈ st.users, u.email ≠ d.email) :
    (register st d i t).2 = .ok () ∧
    (register st d i t).1.users = st.users ++
      [{ id := i, name := d.name, email := d.email,
         password := d.password, bio := d.bio, createdAt := t,
         role := .user }] ∧
    (register st d i t).1.user = some (freshUser d i t) ∧
    (register st d i t).1.store.auth_session = some (freshUser d i t) ∧
    (register st d i t).1.store.auth_db_users =
      some (st.users ++ [freshUser d i t]) := by
  have hany : st.users.any (fun u => u.email == d.email) = false := by
    rw [List.any_eq_false]
    intro u hu
    simp [h u hu]
  refine ⟨?_, ?_, ?_, ?_, ?_⟩ <;>
    simp [register, registerSettle, startLoading, syncUsersEffect, hany,
      freshUser]

/-- Witness for C3: registering a new email on the worked example
succeeds and sets the fresh record as the Session. -/
theorem register_unique_email_witness :
    (register exState ⟨"Bo", "b@x.com", "pw", "hi"⟩ "u2" "2024").2 =
      .ok () ∧
    (register exState ⟨"Bo", "b@x.com", "pw", "hi"⟩ "u2" "2024").1.user =
      some (freshUser ⟨"Bo", "b@x.com", "pw", "hi"⟩ "u2" "2024") :=
  ⟨(register_unique_email exState ⟨"Bo", "b@x.com", "pw", "hi"⟩ "u2" "2024"
      (by decide)).1,
   (register_unique_email exState ⟨"Bo", "b@x.com", "pw", "hi"⟩ "u2" "2024"
      (by decide)).2.2.1⟩

/-- C5: generateBio is total (never propagates the underlying error) and
never returns the empty string; a failing call yields one fixed non-empty
fallback and an empty response a different fixed non-empty fallback. -/
theorem generateBio_fallbacks (n i : String) (api : ApiResult) :
    generateBio n i api ≠ "" ∧
    generateBio n i .failure =
      "Entusiasta de tecnologia explorando novas ideias." ∧
    generateBio n i (.success "") =
      "Apaixonado por tecnologia e inovação." ∧
    generateBio n i .failure ≠ generateBio n i (.success "") := by
  refine ⟨?_, rfl, rfl, ?_⟩
  · cases api with
    | failure =>
        show "Entusiasta de tecnologia explorando novas ideias." ≠ ""
        decide
    | success t =>
        by_cases ht : t = ""
        · rw [ht]
          show "Apaixonado por tecnologia e inovação." ≠ ""
          decide
        · show (if t = "" then _ else t) ≠ ""
          rw [if_neg ht]; exact ht
  · show "Entusiasta de tecnologia explorando novas ideias." ≠
      "Apaixonado por tecnologia e inovação."
    decide

/-- Each single provider operation preserves pairwise-distinct emails in
the Directory: login and logout never touch it, and register only appends
a record whose email it just checked to be absent. -/
lemma applyOp_email_nodup (st : ProviderState) (op : Op)
    (h : (st.users.map User.email).Nodup) :
    (((applyOp st op).users.map User.email)).Nodup := by
  cases op with
  | login e p =>
      show (((login st e p).1).users.map User.email).Nodup
      rw [login_users]; exact h
  | logout => exact h
  | register d i t =>
      show (((register st d i t).1).users.map User.email).Nodup
      cases hc : st.users.any (fun u => u.email == d.email) with
      | true =>
          have husers : ((register st d i t).1).users = st.users := by
            simp [register, registerSettle, startLoading, hc]
          rw [husers]; exact h
      | false =>
          rw [register_users_of_not_taken st d i t hc, List.map_append,
            List.nodup_append]
          refine ⟨h, List.nodup_singleton _, ?_⟩
          intro a ha hb
          simp only [List.map_cons, List.map_nil, List.mem_singleton] at hb
          obtain ⟨u, hu, he⟩ := List.mem_map.mp ha
          have hne := List.any_eq_false.mp hc u hu
          simp only [beq_iff_eq] at hne
          exact hne (by rw [he, hb]; rfl)

/-- C6: starting from any state whose Directory records carry
pairwise-distinct emails, every sequence of login, register and logout
operations yields a Directory whose emails are still pairwise distinct. -/
theorem email_uniqueness_invariant (st : ProviderState) (ops : List Op)
    (h : (st.users.map User.email).Nodup) :
    (((runOps st ops).users.map User.email)).Nodup := by
  induction ops generalizing st with
  | nil => exact h
  | cons op rest ih => exact ih _ (applyOp_email_nodup st op h)

/-- Witness for C6: a register, a login and a logout starting from the
worked example keep the Directory emails distinct. -/
theorem email_uniqueness_invariant_witness :
    (((runOps exState
        [Op.register ⟨"Bo", "b@x.com", "pw", ""⟩ "u2" "2024",
         Op.login "a@x.com" "secret1",
         Op.logout]).users.map User.email)).Nodup :=
  email_uniqueness_invariant exState
    [Op.register ⟨"Bo", "b@x.com", "pw", ""⟩ "u2" "2024",
     Op.login "a@x.com" "secret1", Op.logout] (by decide)

/-- C7 counterexample: the claim that the loading flag is true only
during the startup rehydration fails on the code: the very first thing
login does (src/App.tsx line 49) is set the flag, so the state during a
login's simulated delay — `startLoading exState`, through which `login`
factors by definition — has the flag true. -/
theorem loading_true_during_login :
    exState.isLoading = false ∧
    (startLoading exState).isLoading = true ∧
    login exState "a@x.com" "secret1" =
      loginSettle (startLoading exState) "a@x.com" "secret1" :=
  ⟨rfl, rfl, rfl⟩

/-- C7 (amended): the loading flag is true from mount until rehydration
completes, and again during the pending (simulated-delay) phase of each
login and register; both operations clear it when they settle, whether
they resolve or reject, and logout never changes it. -/
theorem loading_flag_behavior (st : ProviderState) (e p : String)
    (d : RegisterData) (i t : String) :
    (initialState st.store).isLoading = true ∧
    (rehydrate (initialState st.store)).isLoading = false ∧
    (startLoading st).isLoading = true ∧
    (login st e p).1.isLoading = false ∧
    (register st d i t).1.isLoading = false ∧
    (logout st).isLoading = st.isLoading := by
  refine ⟨rfl, rfl, rfl, ?_, ?_, rfl⟩
  · unfold login loginSettle startLoading
    split <;> rfl
  · unfold register registerSettle startLoading
    split <;> rfl

/-- C8: the sync effect writes the Directory storage key only when the
in-memory Directory is non-empty; with an empty Directory the whole
storage — previously persisted records included — is left unchanged. -/
theorem syncUsers_preserves_persisted (st : ProviderState) :
    (st.users = [] → (syncUsersEffect st).store = st.store) ∧
    (st.users ≠ [] →
      (syncUsersEffect st).store.auth_db_users = some st.users) := by
  constructor
  · intro h
    simp [syncUsersEffect, h]
  · intro h
    unfold syncUsersEffect
    rw [if_pos (by simpa using List.length_pos.mpr h)]

/-- Witness for C8: the effect on an empty-Directory state leaves the
persisted records alone, and on the worked example writes them. -/
theorem syncUsers_preserves_persisted_witness :
    (syncUsersEffect exEmptyState).store = exEmptyState.store ∧
    (syncUsersEffect exState).store.auth_db_users = some exState.users :=
  ⟨(syncUsers_preserves_persisted exEmptyState).1 rfl,
   (syncUsers_preserves_persisted exState).2 (by decide)⟩

/-- C9: login matching is exact, case-sensitive string equality on both
fields: whenever no stored record agrees with the candidate pair
character-for-character on both email and password — in particular when
every stored pair differs only in letter case or in whitespace — login
rejects with InvalidCredentials and leaves the Session unchanged. -/
theorem login_exact_match (st : ProviderState) (e p : String)
    (h : ∀ u ∈ st.users, u.email ≠ e ∨ u.password ≠ p) :
    (login st e p).2 = .error .invalidCredentials ∧
    (login st e p).1.user = st.user :=
  login_failure_of_no_match st e p (by
    intro u hu hc
    rcases h u hu with h1 | h1
    · exact h1 hc.1
    · exact h1 hc.2)

/-- Witness for C9: a pair differing from the stored one only in the
email's letter case, and one differing only by a leading space in the
password, are both rejected. -/
theorem login_exact_match_witness :
    (login exState "A@x.com" "secret1").2 = .error .invalidCredentials ∧
    (login exState "a@x.com" " secret1").2 = .error .invalidCredentials :=
  ⟨(login_exact_match exState "A@x.com" "secret1" (by decide)).1,
   (login_exact_match exState "a@x.com" " secret1" (by decide)).1⟩

/-- A resolving login puts a Directory member in the Session. -/
lemma login_ok_session_mem (st : ProviderState) (e p : String)
    (h : (login st e p).2 = .ok ()) :
    ∃ u, (login st e p).1.user = some u ∧
      u ∈ (login st e p).1.users := by
  rcases hf : st.users.find? (fun u => u.email == e && u.password == p)
    with _ | u
  · have : (login st e p).2 = .error .invalidCredentials := by
      simp [login, loginSettle, startLoading, hf]
    rw [this] at h
    exact Except.noConfusion h
  · refine ⟨u, ?_, ?_⟩
    · simp [login, loginSettle, startLoading, hf]
    · rw [login_users]
      exact List.mem_of_find?_eq_some hf

/-- A resolving register puts the appended record in the Session, and it
is a member of the new Directory. -/
lemma register_ok_session_mem (st : ProviderState) (d : RegisterData)
    (i t : String) (h : (register st d i t).2 = .ok ()) :
    ∃ u, (register st d i t).1.user = some u ∧
      u ∈ (register st d i t).1.users := by
  cases hc : st.users.any (fun u => u.email == d.email) with
  | true =>
      have : (register st d i t).2 = .error .emailTaken := by
        simp [register, registerSettle, startLoading, hc]
      rw [this] at h
      exact Except.noConfusion h
  | false =>
      refine ⟨freshUser d i t, ?_, ?_⟩
      · simp [register, registerSettle, startLoading, hc]
      · rw [register_users_of_not_taken st d i t hc]
        exact List.mem_append_right _ (List.mem_singleton_self _)

/-- C10: after every successful login or register, the Session record is
an element of the Directory. -/
theorem session_in_directory (st : ProviderState) (e p : String)
    (d : RegisterData) (i t : String) :
    ((login st e p).2 = .ok () →
      ∃ u, (login st e p).1.user = some u ∧
        u ∈ (login st e p).1.users) ∧
    ((register st d i t).2 = .ok () →
      ∃ u, (register st d i t).1.user = some u ∧
        u ∈ (register st d i t).1.users) :=
  ⟨login_ok_session_mem st e p, register_ok_session_mem st d i t⟩

/-- Witness for C10: a concrete successful login and a concrete
successful register both leave the Session inside the Directory. -/
theorem session_in_directory_witness :
    (∃ u, (login exState "a@x.com" "secret1").1.user = some u ∧
      u ∈ (login exState "a@x.com" "secret1").1.users) ∧
    (∃ u,
      (register exState ⟨"Cy", "c@x.com", "pw", ""⟩ "u3" "2025").1.user
        = some u ∧
      u ∈ (register exState ⟨"Cy", "c@x.com", "pw", ""⟩ "u3"
        "2025").1.users) :=
  ⟨(session_in_directory exState "a@x.com" "secret1"
      ⟨"Cy", "c@x.com", "pw", ""⟩ "u3" "2025").1 (by rfl),
   (session_in_directory exState "a@x.com" "secret1"
      ⟨"Cy", "c@x.com", "pw", ""⟩ "u3" "2025").2 (by rfl)⟩

end BuildGoogle
